import Mathlib

/-!
Shallow embedding of `src/services/realDatabaseService.js`
(class `RealDatabaseService`), the client-side data-access layer of the
studentkonnect repository, together with proofs settling the frozen claims
about it.

Modelling conventions:
* The remote PostgREST store is modelled as an explicit `DB` value; a remote
  call either succeeds (computing its result from the `DB`) or fails with a
  transport/query error, which we inject as an `Option String` argument
  (`none` = the remote call succeeds, `some e` = the awaited call rejects or
  returns an `error` field, which the JS code turns into `throw error`).
* JavaScript truthiness tests (`if (this.cache.countries)`,
  `if (adminNotes)`, `if (filters.country_id)`, `if (searchTerm)`) are
  modelled by dedicated `jsTruthy*` functions: `null`/`undefined` is `none`,
  the empty string and the number 0 are falsy, arrays (even empty ones) are
  truthy.
* ISO timestamps (`new Date().toISOString()`) are modelled as a `Nat` clock
  value passed in as `now`; string comparison of ISO timestamps agrees with
  numeric comparison of the instants.
* PostgREST `.order(col)` is modelled by an insertion sort, `.eq` by
  Boolean equality of the column, `.ilike('%p%')` by case-insensitive (ASCII)
  substring containment, `.single()` by requiring exactly one returned row.
* The nested-select join shapes (`n_countries ( ... )` etc.) only add
  denormalized copies of parent rows to the payload; no claim depends on the
  embedded parent columns, so result rows are modelled by the base row type.
-/

/-! ## JavaScript-style helpers -/

/-- Truthiness of a nullable JS string: `null`/`undefined` and `""` are falsy. -/
def jsTruthyStr : Option String → Bool
  | none => false
  | some s => !s.isEmpty

/-- Truthiness of a nullable JS number: `null`/`undefined` and `0` are falsy. -/
def jsTruthyNat : Option Nat → Bool
  | none => false
  | some n => n != 0

/-- ASCII lower-casing of a character code, as `LOWER`/`ILIKE` applies it. -/
def lowerNat (c : Char) : Nat :=
  let n := c.toNat
  if 65 ≤ n && n ≤ 90 then n + 32 else n

/-- Case-insensitive character equality (ASCII). -/
def charIEq (a b : Char) : Bool := lowerNat a == lowerNat b

/-- `startsWithCI p l`: `l` starts with pattern `p`, case-insensitively. -/
def startsWithCI : List Char → List Char → Bool
  | [], _ => true
  | _ :: _, [] => false
  | p :: ps, c :: cs => charIEq p c && startsWithCI ps cs

/-- `containsCI p l`: pattern `p` occurs as a contiguous run inside `l`,
case-insensitively. -/
def containsCI (pat : List Char) : List Char → Bool
  | [] => pat.isEmpty
  | c :: cs => startsWithCI pat (c :: cs) || containsCI pat cs

/-- PostgREST `col.ilike.%pat%`: case-insensitive substring match. -/
def ilike (s pat : String) : Bool := containsCI pat.toList s.toList

/-- Lexicographic comparison of strings by character code, used to model the
server-side `order(col, { ascending: true })`. -/
def strLe (a b : String) : Bool :=
  go a.toList b.toList
where
  go : List Char → List Char → Bool
    | [], _ => true
    | _ :: _, [] => false
    | x :: xs, y :: ys =>
      if x.toNat < y.toNat then true
      else if y.toNat < x.toNat then false
      else go xs ys

/-- Insert into a list sorted by `le` (helper for `sortBy`). -/
def insertSorted (le : α → α → Bool) (a : α) : List α → List α
  | [] => [a]
  | b :: bs => if le a b then a :: b :: bs else b :: insertSorted le a bs

/-- Stable model of the remote store's `order by`. -/
def sortBy (le : α → α → Bool) (l : List α) : List α :=
  l.foldr (insertSorted le) []

theorem mem_insertSorted (le : α → α → Bool) (a x : α) (l : List α) :
    x ∈ insertSorted le a l ↔ x = a ∨ x ∈ l := by
  induction l with
  | nil => simp [insertSorted]
  | cons b bs ih =>
    simp only [insertSorted]
    by_cases h : le a b = true
    · simp [h]
    · simp only [if_neg h, List.mem_cons, ih]
      tauto

theorem mem_sortBy (le : α → α → Bool) (x : α) (l : List α) :
    x ∈ sortBy le l ↔ x ∈ l := by
  induction l with
  | nil => simp [sortBy]
  | cons b bs ih =>
    simp only [sortBy, List.foldr_cons] at *
    rw [mem_insertSorted, ih, List.mem_cons]

/-! ## Entity rows (columns the service actually touches) -/

structure Country where
  country_id : Nat
  country_name : String
  country_code : String
deriving DecidableEq, Repr

structure University where
  id : Nat
  university_name : String
  city : String
  state_province : String
  country_id : Nat
  university_type : String
deriving DecidableEq, Repr

structure Course where
  id : Nat
  program_name : String
  degree_level : String
  university_id : Nat
deriving DecidableEq, Repr

structure Pathway where
  id : Nat
  name : String
deriving DecidableEq, Repr

structure Counselor where
  id : Nat
  display_name : String
  is_available : Bool
deriving DecidableEq, Repr

structure CounselorRequest where
  id : Nat
  student_id : Nat
  requested_counselor_id : Nat
  counselor_id : Option Nat
  status : String
  admin_notes : Option String
  requested_at : Nat
  approved_at : Option Nat
  created_at : Nat
  updated_at : Nat
deriving DecidableEq, Repr

/-! ## Result envelope

Every method body ends in `return { data, error: null }` on the success path
and `return { data: null, error }` in the `catch` block; `okEnv` and `errEnv`
are exactly those two constructors. -/

structure Envelope (α : Type) where
  data : Option α
  error : Option String
deriving DecidableEq, Repr

/-- `return { data, error: null }`. -/
def okEnv (a : α) : Envelope α := { data := some a, error := none }

/-- `return { data: null, error }`. -/
def errEnv (e : String) : Envelope α := { data := none, error := some e }

/-! ## Remote store, cache and service state -/

structure DB where
  countries : List Country
  universities : List University
  courses : List Course
  pathways : List Pathway
  counselors : List Counselor
  requests : List CounselorRequest
deriving DecidableEq, Repr

/-- The `this.cache` object from the constructor: four nullable fields, all
initialised to `null`. (`universities` and `courses` are declared but never
read or written by any method.) -/
structure Cache where
  countries : Option (List Country)
  universities : Option (List University)
  courses : Option (List Course)
  pathways : Option (List Pathway)
deriving DecidableEq, Repr

/-- `new RealDatabaseService()`. -/
def Cache.init : Cache :=
  { countries := none, universities := none, courses := none, pathways := none }

/-- Service instance together with the remote store it talks to.
`fetchCount` instruments the model: it counts remote calls actually issued
(cache hits issue none). -/
structure World where
  db : DB
  cache : Cache
  fetchCount : Nat
deriving DecidableEq, Repr

/-! ## Remote-call plumbing -/

/-- `.single()`: PostgREST errors unless exactly one row is returned. -/
def singleRow : List α → Except String α
  | [r] => .ok r
  | [] => .error "PGRST116: zero rows"
  | _ => .error "PGRST116: multiple rows"

/-- A method body of the shape
`try { const {data,error} = await supabase...; if (error) throw error;
return {data, error: null} } catch (error) { return {data: null, error} }`.
The call is issued (`fetchCount` increments), then either the transport/query
fails (`fail = some e`) or the store computes the response, which may itself
be an error (e.g. `.single()` on zero rows). -/
def remoteCall (w : World) (fail : Option String) (compute : DB → Except String α) :
    World × Envelope α :=
  let w1 := { w with fetchCount := w.fetchCount + 1 }
  match fail with
  | some e => (w1, errEnv e)
  | none =>
    match compute w.db with
    | .ok a => (w1, okEnv a)
    | .error e => (w1, errEnv e)

/-! ## Catalog service methods -/

/-- `getAllCountries()`: returns the cached array when `this.cache.countries`
is truthy (any array, even empty, is truthy); otherwise selects all rows of
`n_countries` ordered by `country_name` ascending, stores them in the cache
on success, and returns them. -/
def getAllCountries (w : World) (fail : Option String) :
    World × Envelope (List Country) :=
  match w.cache.countries with
  | some rows => (w, okEnv rows)
  | none =>
    let w1 := { w with fetchCount := w.fetchCount + 1 }
    match fail with
    | some e => (w1, errEnv e)
    | none =>
      let rows := sortBy (fun a b => strLe a.country_name b.country_name) w.db.countries
      ({ w1 with cache := { w1.cache with countries := some rows } }, okEnv rows)

/-- `getCountryById(countryId)`: `.eq('country_id', countryId).single()`. -/
def getCountryById (w : World) (countryId : Nat) (fail : Option String) :
    World × Envelope Country :=
  remoteCall w fail (fun db =>
    singleRow (db.countries.filter (fun c => c.country_id == countryId)))

/-- `getAllUniversities()`: all rows of `new_universities` (with the
`n_countries` embed) ordered by `university_name` ascending. -/
def getAllUniversities (w : World) (fail : Option String) :
    World × Envelope (List University) :=
  remoteCall w fail (fun db =>
    .ok (sortBy (fun a b => strLe a.university_name b.university_name) db.universities))

/-- `getUniversitiesByCountry(countryId)`. -/
def getUniversitiesByCountry (w : World) (countryId : Nat) (fail : Option String) :
    World × Envelope (List University) :=
  remoteCall w fail (fun db =>
    .ok (sortBy (fun a b => strLe a.university_name b.university_name)
      (db.universities.filter (fun u => u.country_id == countryId))))

/-- `getUniversityById(universityId)`: `.eq('id', universityId).single()`. -/
def getUniversityById (w : World) (universityId : Nat) (fail : Option String) :
    World × Envelope University :=
  remoteCall w fail (fun db =>
    singleRow (db.universities.filter (fun u => u.id == universityId)))

/-- `getAllCourses()`: all rows of `new_courses` (with the nested university
and country embeds) ordered by `program_name` ascending. -/
def getAllCourses (w : World) (fail : Option String) :
    World × Envelope (List Course) :=
  remoteCall w fail (fun db =>
    .ok (sortBy (fun a b => strLe a.program_name b.program_name) db.courses))

/-- `getCoursesByUniversity(universityId)`. -/
def getCoursesByUniversity (w : World) (universityId : Nat) (fail : Option String) :
    World × Envelope (List Course) :=
  remoteCall w fail (fun db =>
    .ok (sortBy (fun a b => strLe a.program_name b.program_name)
      (db.courses.filter (fun c => c.university_id == universityId))))

/-- `getCourseById(courseId)`: `.eq('id', courseId).single()`. -/
def getCourseById (w : World) (courseId : Nat) (fail : Option String) :
    World × Envelope Course :=
  remoteCall w fail (fun db =>
    singleRow (db.courses.filter (fun c => c.id == courseId)))

/-- `getAllPathways()`: same cache-or-fetch shape as `getAllCountries`,
over the `pathways` table ordered by `name` ascending. -/
def getAllPathways (w : World) (fail : Option String) :
    World × Envelope (List Pathway) :=
  match w.cache.pathways with
  | some rows => (w, okEnv rows)
  | none =>
    let w1 := { w with fetchCount := w.fetchCount + 1 }
    match fail with
    | some e => (w1, errEnv e)
    | none =>
      let rows := sortBy (fun a b => strLe a.name b.name) w.db.pathways
      ({ w1 with cache := { w1.cache with pathways := some rows } }, okEnv rows)

/-! ## Search methods -/

/-- The `filters` object accepted by `searchUniversities`; absent keys are
`none` (JS `undefined`). -/
structure UniversityFilters where
  country_id : Option Nat := none
  university_type : Option String := none
deriving DecidableEq, Repr

/-- The query built by `searchUniversities(searchTerm, filters)`:
`if (searchTerm)` adds
`or(university_name.ilike.%t%, city.ilike.%t%, state_province.ilike.%t%)`;
`if (filters.country_id)` adds `eq('country_id', ...)`;
`if (filters.university_type)` adds `ilike('university_type', '%...%')`;
finally `order('university_name', { ascending: true })`. -/
def universitySearchRows (db : DB) (searchTerm : String)
    (filters : UniversityFilters) : List University :=
  let q1 :=
    if searchTerm.isEmpty then db.universities
    else db.universities.filter (fun u =>
      ilike u.university_name searchTerm || ilike u.city searchTerm ||
        ilike u.state_province searchTerm)
  let q2 :=
    if jsTruthyNat filters.country_id then
      q1.filter (fun u => u.country_id == filters.country_id.getD 0)
    else q1
  let q3 :=
    if jsTruthyStr filters.university_type then
      q2.filter (fun u => ilike u.university_type (filters.university_type.getD ""))
    else q2
  sortBy (fun a b => strLe a.university_name b.university_name) q3

/-- `searchUniversities(searchTerm, filters = {})`. -/
def searchUniversities (w : World) (searchTerm : String)
    (filters : UniversityFilters) (fail : Option String) :
    World × Envelope (List University) :=
  remoteCall w fail (fun db => .ok (universitySearchRows db searchTerm filters))

/-- The `filters` object accepted by `searchCourses`. -/
structure CourseFilters where
  university_id : Option Nat := none
  degree_level : Option String := none
deriving DecidableEq, Repr

/-- The query built by `searchCourses(searchTerm, filters)`:
`if (searchTerm)` adds `ilike('program_name', '%t%')`;
`if (filters.university_id)` adds `eq('university_id', ...)`;
`if (filters.degree_level)` adds `eq('degree_level', ...)`;
finally `order('program_name', { ascending: true })`. -/
def courseSearchRows (db : DB) (searchTerm : String)
    (filters : CourseFilters) : List Course :=
  let q1 :=
    if searchTerm.isEmpty then db.courses
    else db.courses.filter (fun c => ilike c.program_name searchTerm)
  let q2 :=
    if jsTruthyNat filters.university_id then
      q1.filter (fun c => c.university_id == filters.university_id.getD 0)
    else q1
  let q3 :=
    if jsTruthyStr filters.degree_level then
      q2.filter (fun c => c.degree_level == filters.degree_level.getD "")
    else q2
  sortBy (fun a b => strLe a.program_name b.program_name) q3

/-- `searchCourses(searchTerm, filters = {})`. -/
def searchCourses (w : World) (searchTerm : String)
    (filters : CourseFilters) (fail : Option String) :
    World × Envelope (List Course) :=
  remoteCall w fail (fun db => .ok (courseSearchRows db searchTerm filters))

/-! ## Statistics -/

structure Stats where
  countries : Nat
  universities : Nat
  courses : Nat
  pathways : Nat
deriving DecidableEq, Repr

/-- `xs?.length || 0`: `0` when `data` is `null`, the length otherwise
(a length of `0` also yields `0` through `|| 0`). -/
def optLen : Option (List α) → Nat
  | some l => l.length
  | none => 0

/-- `getStatistics()`: `Promise.all` over the four list calls (each of which
resolves to its envelope and never rejects, so the outer `catch` is dead
code), then reduces to the four `data?.length || 0` counts. The four branch
failures are injected independently. -/
def getStatistics (w : World) (f1 f2 f3 f4 : Option String) : World × Stats :=
  let p1 := getAllCountries w f1
  let p2 := getAllUniversities p1.1 f2
  let p3 := getAllCourses p2.1 f3
  let p4 := getAllPathways p3.1 f4
  (p4.1,
    { countries := optLen p1.2.data
      universities := optLen p2.2.data
      courses := optLen p3.2.data
      pathways := optLen p4.2.data })

/-! ## Counselor and counselor-request methods -/

/-- `getAllCounselors()`: `.eq('is_available', true)` then
`order('display_name')`. -/
def getAllCounselors (w : World) (fail : Option String) :
    World × Envelope (List Counselor) :=
  remoteCall w fail (fun db =>
    .ok (sortBy (fun a b => strLe a.display_name b.display_name)
      (db.counselors.filter (fun c => c.is_available == true))))

/-- `getCounselorById(counselorId)`: `.eq('id', ...).single()`. -/
def getCounselorById (w : World) (counselorId : Nat) (fail : Option String) :
    World × Envelope Counselor :=
  remoteCall w fail (fun db =>
    singleRow (db.counselors.filter (fun c => c.id == counselorId)))

/-- `getCounselorRequestByStudent(studentId)`: `.eq('student_id', ...)`
ordered by `created_at` descending. -/
def getCounselorRequestByStudent (w : World) (studentId : Nat)
    (fail : Option String) : World × Envelope (List CounselorRequest) :=
  remoteCall w fail (fun db =>
    .ok (sortBy (fun a b => decide (b.created_at ≤ a.created_at))
      (db.requests.filter (fun r => r.student_id == studentId))))

/-- `getCounselorRequestsByCounselor(counselorId)`:
`.eq('requested_counselor_id', ...)` ordered by `created_at` descending. -/
def getCounselorRequestsByCounselor (w : World) (counselorId : Nat)
    (fail : Option String) : World × Envelope (List CounselorRequest) :=
  remoteCall w fail (fun db =>
    .ok (sortBy (fun a b => decide (b.created_at ≤ a.created_at))
      (db.requests.filter (fun r => r.requested_counselor_id == counselorId))))

/-- `createCounselorRequest(requestData)`: a bare
`.insert([requestData]).select()` — the record is appended to the store as
given (no duplicate check, no field defaulting in this layer) and the
inserted rows are returned. -/
def createCounselorRequest (w : World) (requestData : CounselorRequest)
    (fail : Option String) : World × Envelope (List CounselorRequest) :=
  let w1 := { w with fetchCount := w.fetchCount + 1 }
  match fail with
  | some e => (w1, errEnv e)
  | none =>
    ({ w1 with db := { w1.db with requests := w1.db.requests ++ [requestData] } },
      okEnv [requestData])

/-- `getAllCounselorRequests()`: all rows (with the `counselors ( ... )`
embed, whose columns no claim touches) ordered by `requested_at`
descending. -/
def getAllCounselorRequests (w : World) (fail : Option String) :
    World × Envelope (List CounselorRequest) :=
  remoteCall w fail (fun db =>
    .ok (sortBy (fun a b => decide (b.requested_at ≤ a.requested_at)) db.requests))

/-- `getCounselorRequestsByStatus(status)`: `.eq('status', ...)` ordered by
`requested_at` descending. -/
def getCounselorRequestsByStatus (w : World) (status : String)
    (fail : Option String) : World × Envelope (List CounselorRequest) :=
  remoteCall w fail (fun db =>
    .ok (sortBy (fun a b => decide (b.requested_at ≤ a.requested_at))
      (db.requests.filter (fun r => r.status == status))))

/-! ## The status update -/

/-- The `updateData` object built by `updateCounselorRequestStatus`:
`status` and `updated_at` are always present; `admin_notes` is present only
when `adminNotes` is truthy (non-null, non-empty); `approved_at` is present
only when `status === 'approved'`. Absence is `none`. -/
structure UpdateData where
  status : String
  updated_at : Nat
  admin_notes : Option String
  approved_at : Option Nat
deriving DecidableEq, Repr

/-- Lines 489–500 of the source: assembling `updateData`. -/
def mkUpdateData (status : String) (adminNotes : Option String) (now : Nat) :
    UpdateData :=
  { status := status
    updated_at := now
    admin_notes := if jsTruthyStr adminNotes then adminNotes else none
    approved_at := if status == "approved" then some now else none }

/-- The store-side semantics of `.update(updateData)` on one row: columns
present in `updateData` are overwritten, all other columns keep their
values. -/
def applyUpdateData (u : UpdateData) (r : CounselorRequest) : CounselorRequest :=
  { r with
    status := u.status
    updated_at := u.updated_at
    admin_notes := match u.admin_notes with | some n => some n | none => r.admin_notes
    approved_at := match u.approved_at with | some t => some t | none => r.approved_at }

/-- `updateCounselorRequestStatus(requestId, status, adminNotes = null)`:
builds `updateData`, applies `.update(updateData).eq('id', requestId)`
(every matching row is overwritten; no validation of `status` and no check
of the row's current state happens anywhere), then `.select().single()` on
the updated rows. -/
def updateCounselorRequestStatus (w : World) (requestId : Nat) (status : String)
    (adminNotes : Option String) (now : Nat) (fail : Option String) :
    World × Envelope CounselorRequest :=
  let w1 := { w with fetchCount := w.fetchCount + 1 }
  match fail with
  | some e => (w1, errEnv e)
  | none =>
    let u := mkUpdateData status adminNotes now
    let newReqs := w1.db.requests.map
      (fun r => if r.id == requestId then applyUpdateData u r else r)
    let w2 := { w1 with db := { w1.db with requests := newReqs } }
    match singleRow (newReqs.filter (fun r => r.id == requestId)) with
    | .ok r => (w2, okEnv r)
    | .error e => (w2, errEnv e)

/-- `getCounselorStudents(counselorId)`: `.eq('counselor_id', ...)`,
`.eq('status', 'approved')`, ordered by `approved_at` descending. -/
def getCounselorStudents (w : World) (counselorId : Nat) (fail : Option String) :
    World × Envelope (List CounselorRequest) :=
  remoteCall w fail (fun db =>
    .ok (sortBy (fun a b => decide (b.approved_at.getD 0 ≤ a.approved_at.getD 0))
      (db.requests.filter
        (fun r => r.counselor_id == some counselorId && r.status == "approved"))))

/-! ## The public surface as one operation type

`Op` enumerates every public method of `RealDatabaseService`, with its
arguments and the injected remote outcome(s); `runOp` dispatches to the
per-method definitions above. This is the whole class: in particular there
is no invalidation method of any kind. -/

inductive Op where
  | opGetAllCountries (fail : Option String)
  | opGetCountryById (countryId : Nat) (fail : Option String)
  | opGetAllUniversities (fail : Option String)
  | opGetUniversitiesByCountry (countryId : Nat) (fail : Option String)
  | opGetUniversityById (universityId : Nat) (fail : Option String)
  | opGetAllCourses (fail : Option String)
  | opGetCoursesByUniversity (universityId : Nat) (fail : Option String)
  | opGetCourseById (courseId : Nat) (fail : Option String)
  | opGetAllPathways (fail : Option String)
  | opSearchUniversities (searchTerm : String) (filters : UniversityFilters)
      (fail : Option String)
  | opSearchCourses (searchTerm : String) (filters : CourseFilters)
      (fail : Option String)
  | opGetStatistics (f1 f2 f3 f4 : Option String)
  | opGetAllCounselors (fail : Option String)
  | opGetCounselorById (counselorId : Nat) (fail : Option String)
  | opGetCounselorRequestByStudent (studentId : Nat) (fail : Option String)
  | opGetCounselorRequestsByCounselor (counselorId : Nat) (fail : Option String)
  | opCreateCounselorRequest (requestData : CounselorRequest) (fail : Option String)
  | opGetAllCounselorRequests (fail : Option String)
  | opGetCounselorRequestsByStatus (status : String) (fail : Option String)
  | opUpdateCounselorRequestStatus (requestId : Nat) (status : String)
      (adminNotes : Option String) (now : Nat) (fail : Option String)
  | opGetCounselorStudents (counselorId : Nat) (fail : Option String)
deriving DecidableEq, Repr

/-- The possible `data` payloads of the envelopes across the public surface. -/
inductive Payload where
  | countryRows (l : List Country)
  | countryRow (c : Country)
  | universityRows (l : List University)
  | universityRow (u : University)
  | courseRows (l : List Course)
  | courseRow (c : Course)
  | pathwayRows (l : List Pathway)
  | counselorRows (l : List Counselor)
  | counselorRow (c : Counselor)
  | requestRows (l : List CounselorRequest)
  | requestRow (r : CounselorRequest)
deriving DecidableEq, Repr

/-- What a public method hands back to its caller: either a `{data, error}`
envelope, or — only in the case of `getStatistics` — a bare counts record. -/
inductive RetVal where
  | envelope (e : Envelope Payload)
  | statsVal (s : Stats)
deriving DecidableEq, Repr

/-- Discriminator: does the returned value have the `{data, error}` shape? -/
def RetVal.isEnvelope : RetVal → Bool
  | .envelope _ => true
  | .statsVal _ => false

/-- Tag a typed envelope with its payload constructor. -/
def liftEnv (f : α → Payload) (e : Envelope α) : Envelope Payload :=
  { data := e.data.map f, error := e.error }

/-- Run one public method. -/
def runOp (op : Op) (w : World) : World × RetVal :=
  match op with
  | .opGetAllCountries fail =>
    let p := getAllCountries w fail
    (p.1, .envelope (liftEnv .countryRows p.2))
  | .opGetCountryById i fail =>
    let p := getCountryById w i fail
    (p.1, .envelope (liftEnv .countryRow p.2))
  | .opGetAllUniversities fail =>
    let p := getAllUniversities w fail
    (p.1, .envelope (liftEnv .universityRows p.2))
  | .opGetUniversitiesByCountry i fail =>
    let p := getUniversitiesByCountry w i fail
    (p.1, .envelope (liftEnv .universityRows p.2))
  | .opGetUniversityById i fail =>
    let p := getUniversityById w i fail
    (p.1, .envelope (liftEnv .universityRow p.2))
  | .opGetAllCourses fail =>
    let p := getAllCourses w fail
    (p.1, .envelope (liftEnv .courseRows p.2))
  | .opGetCoursesByUniversity i fail =>
    let p := getCoursesByUniversity w i fail
    (p.1, .envelope (liftEnv .courseRows p.2))
  | .opGetCourseById i fail =>
    let p := getCourseById w i fail
    (p.1, .envelope (liftEnv .courseRow p.2))
  | .opGetAllPathways fail =>
    let p := getAllPathways w fail
    (p.1, .envelope (liftEnv .pathwayRows p.2))
  | .opSearchUniversities t fs fail =>
    let p := searchUniversities w t fs fail
    (p.1, .envelope (liftEnv .universityRows p.2))
  | .opSearchCourses t fs fail =>
    let p := searchCourses w t fs fail
    (p.1, .envelope (liftEnv .courseRows p.2))
  | .opGetStatistics f1 f2 f3 f4 =>
    let p := getStatistics w f1 f2 f3 f4
    (p.1, .statsVal p.2)
  | .opGetAllCounselors fail =>
    let p := getAllCounselors w fail
    (p.1, .envelope (liftEnv .counselorRows p.2))
  | .opGetCounselorById i fail =>
    let p := getCounselorById w i fail
    (p.1, .envelope (liftEnv .counselorRow p.2))
  | .opGetCounselorRequestByStudent i fail =>
    let p := getCounselorRequestByStudent w i fail
    (p.1, .envelope (liftEnv .requestRows p.2))
  | .opGetCounselorRequestsByCounselor i fail =>
    let p := getCounselorRequestsByCounselor w i fail
    (p.1, .envelope (liftEnv .requestRows p.2))
  | .opCreateCounselorRequest rd fail =>
    let p := createCounselorRequest w rd fail
    (p.1, .envelope (liftEnv .requestRows p.2))
  | .opGetAllCounselorRequests fail =>
    let p := getAllCounselorRequests w fail
    (p.1, .envelope (liftEnv .requestRows p.2))
  | .opGetCounselorRequestsByStatus s fail =>
    let p := getCounselorRequestsByStatus w s fail
    (p.1, .envelope (liftEnv .requestRows p.2))
  | .opUpdateCounselorRequestStatus i s n now fail =>
    let p := updateCounselorRequestStatus w i s n now fail
    (p.1, .envelope (liftEnv .requestRow p.2))
  | .opGetCounselorStudents i fail =>
    let p := getCounselorStudents w i fail
    (p.1, .envelope (liftEnv .requestRows p.2))

/-! ## Cooperative interleaving of `getAllCountries`

§5 of the spec fixes the concurrency model: single-threaded cooperative
execution suspending at each remote call. A `getAllCountries()` invocation
has exactly one suspension point — the awaited select. `GacPhase` is one
task's program counter and `gacStep` advances one task by one cooperative
step; the shared state is the cache plus the count of fetches issued. -/

inductive GacPhase where
  | start
  | awaitingFetch
  | finished (result : Envelope (List Country))
deriving DecidableEq, Repr

structure ConcState where
  cache : Option (List Country)
  fetchCount : Nat
deriving DecidableEq, Repr

/-- One cooperative step of one `getAllCountries()` task. From `start`: a
truthy cache finishes immediately with the cached rows; otherwise the fetch
is issued and the task suspends. From `awaitingFetch`: the task's own fetch
result arrives; on success the rows are cached and returned, on failure the
error envelope is returned and the cache is untouched. -/
def gacStep (s : ConcState) (ph : GacPhase)
    (fetched : Except String (List Country)) : ConcState × GacPhase :=
  match ph with
  | .start =>
    match s.cache with
    | some rows => (s, .finished (okEnv rows))
    | none => ({ s with fetchCount := s.fetchCount + 1 }, .awaitingFetch)
  | .awaitingFetch =>
    match fetched with
    | .ok rows => ({ s with cache := some rows }, .finished (okEnv rows))
    | .error e => (s, .finished (errEnv e))
  | .finished r => (s, .finished r)

/-- Two concurrent calls, overlapped schedule: task A checks the cache and
issues its fetch, task B checks the cache and issues its fetch, then both
responses arrive. Returns the final shared state and both results. -/
def gacTwoOverlapped (s0 : ConcState) (ra rb : Except String (List Country)) :
    ConcState × GacPhase × GacPhase :=
  let p1 := gacStep s0 .start ra
  let p2 := gacStep p1.1 .start rb
  let p3 := gacStep p2.1 p1.2 ra
  let p4 := gacStep p3.1 p2.2 rb
  (p4.1, p3.2, p4.2)

/-- Two calls, sequential schedule: task A runs to completion, then task B
starts. -/
def gacTwoSequential (s0 : ConcState) (ra rb : Except String (List Country)) :
    ConcState × GacPhase × GacPhase :=
  let p1 := gacStep s0 .start ra
  let p2 := gacStep p1.1 p1.2 ra
  let p3 := gacStep p2.1 .start rb
  let p4 := gacStep p3.1 p2.2 rb
  (p4.1, p2.2, p4.2)

/-! `getAllPathways()` has exactly the same cache-check / awaited-select /
store-on-success shape over `this.cache.pathways` (source lines 213–232), so
its cooperative interleaving is modelled by the same three-phase task, now
over pathway rows. -/

inductive GapPhase where
  | start
  | awaitingFetch
  | finished (result : Envelope (List Pathway))
deriving DecidableEq, Repr

structure ConcStateP where
  cache : Option (List Pathway)
  fetchCount : Nat
deriving DecidableEq, Repr

/-- One cooperative step of one `getAllPathways()` task: truthy
`this.cache.pathways` finishes immediately with the cached rows; otherwise
the select is issued and the task suspends; the task's own fetch result then
either populates the cache and is returned, or yields the error envelope
with the cache untouched. -/
def gapStep (s : ConcStateP) (ph : GapPhase)
    (fetched : Except String (List Pathway)) : ConcStateP × GapPhase :=
  match ph with
  | .start =>
    match s.cache with
    | some rows => (s, .finished (okEnv rows))
    | none => ({ s with fetchCount := s.fetchCount + 1 }, .awaitingFetch)
  | .awaitingFetch =>
    match fetched with
    | .ok rows => ({ s with cache := some rows }, .finished (okEnv rows))
    | .error e => (s, .finished (errEnv e))
  | .finished r => (s, .finished r)

/-- Two concurrent `getAllPathways` calls, overlapped schedule (both cache
checks run before either response arrives). -/
def gapTwoOverlapped (s0 : ConcStateP) (ra rb : Except String (List Pathway)) :
    ConcStateP × GapPhase × GapPhase :=
  let p1 := gapStep s0 .start ra
  let p2 := gapStep p1.1 .start rb
  let p3 := gapStep p2.1 p1.2 ra
  let p4 := gapStep p3.1 p2.2 rb
  (p4.1, p3.2, p4.2)

/-- Two `getAllPathways` calls, sequential schedule: task A runs to
completion, then task B starts. -/
def gapTwoSequential (s0 : ConcStateP) (ra rb : Except String (List Pathway)) :
    ConcStateP × GapPhase × GapPhase :=
  let p1 := gapStep s0 .start ra
  let p2 := gapStep p1.1 p1.2 ra
  let p3 := gapStep p2.1 .start rb
  let p4 := gapStep p3.1 p2.2 rb
  (p4.1, p2.2, p4.2)

/-! ## Concrete fixtures -/

def emptyDB : DB :=
  { countries := [], universities := [], courses := [], pathways := [],
    counselors := [], requests := [] }

/-- An active (status `requested`) request of student 1 for counselor 5. -/
def reqActive : CounselorRequest :=
  { id := 1, student_id := 1, requested_counselor_id := 5, counselor_id := none,
    status := "requested", admin_notes := none, requested_at := 100,
    approved_at := none, created_at := 100, updated_at := 100 }

/-- A second `requested` request of the same student. -/
def reqActive2 : CounselorRequest :=
  { id := 2, student_id := 1, requested_counselor_id := 5, counselor_id := none,
    status := "requested", admin_notes := none, requested_at := 110,
    approved_at := none, created_at := 110, updated_at := 110 }

/-- A request already in the terminal state `approved`. -/
def reqApproved : CounselorRequest :=
  { id := 1, student_id := 1, requested_counselor_id := 5, counselor_id := some 5,
    status := "approved", admin_notes := none, requested_at := 100,
    approved_at := some 150, created_at := 100, updated_at := 150 }

/-- Fresh service whose store already holds the active request of student 1. -/
def wActive : World :=
  { db := { emptyDB with requests := [reqActive] }, cache := Cache.init,
    fetchCount := 0 }

/-- Fresh service whose store holds one approved request. -/
def wApproved : World :=
  { db := { emptyDB with requests := [reqApproved] }, cache := Cache.init,
    fetchCount := 0 }

/-! ## Shared lemmas about the status update -/

theorem applyUpdateData_id (u : UpdateData) (r : CounselorRequest) :
    (applyUpdateData u r).id = r.id := rfl

theorem filter_id_map_update (u : UpdateData) (i : Nat) (l : List CounselorRequest) :
    (l.map (fun q => if q.id == i then applyUpdateData u q else q)).filter
        (fun q => q.id == i)
      = (l.filter (fun q => q.id == i)).map (applyUpdateData u) := by
  induction l with
  | nil => rfl
  | cons a as ih =>
    simp only [List.map_cons, List.filter_cons]
    by_cases h : (a.id == i) = true
    · simp only [h, if_true, applyUpdateData_id, List.map_cons, ih]
    · simp only [h, if_false, Bool.false_eq_true, ih]

/-- Successful-path characterisation of `updateCounselorRequestStatus` when the
store holds exactly one row with the target id: the matching row is
overwritten via `applyUpdateData` and returned; no other row changes. -/
theorem update_success (w : World) (i : Nat) (st : String) (notes : Option String)
    (now : Nat) (r : CounselorRequest)
    (h : w.db.requests.filter (fun q => q.id == i) = [r]) :
    updateCounselorRequestStatus w i st notes now none =
      ({ w with
          fetchCount := w.fetchCount + 1
          db := { w.db with requests := (w.db.requests.map
            (fun q => if q.id == i then
              applyUpdateData (mkUpdateData st notes now) q else q)) } },
        okEnv (applyUpdateData (mkUpdateData st notes now) r)) := by
  unfold updateCounselorRequestStatus
  simp only [filter_id_map_update, h, List.map_cons, List.map_nil, singleRow]

/-! ## Claim C1 — duplicate detection in `createCounselorRequest` -/

/-- Claim C1 (refuted at a concrete input): with an active
(status = `requested`) request of student 1 already stored,
`createCounselorRequest` for the same student does not fail with any
duplicate-request error — it succeeds and inserts a second record, leaving
two stored `requested` requests for the student. -/
theorem C1_counterexample :
    (createCounselorRequest wActive reqActive2 none).2.error = none ∧
    (createCounselorRequest wActive reqActive2 none).2.data = some [reqActive2] ∧
    (createCounselorRequest wActive reqActive2 none).1.db.requests
      = [reqActive, reqActive2] ∧
    ((createCounselorRequest wActive reqActive2 none).1.db.requests.filter
      (fun r => r.student_id == 1 && r.status == "requested")).length = 2 := by
  decide

/-- Claim C1 as amended: `createCounselorRequest` performs no duplicate check
at all. For every store state — in particular one already holding an active
`requested` request of the same student — it appends the given record
unchanged and returns a success envelope containing it; hence two calls for
the same student store two requests and the second caller receives a success
result, not a `DuplicateRequest` error. -/
theorem C1_create_noDuplicateCheck (w : World) (rd rd' : CounselorRequest) :
    (createCounselorRequest w rd none).1.db.requests = w.db.requests ++ [rd] ∧
    (createCounselorRequest w rd none).2 = okEnv [rd] ∧
    (createCounselorRequest (createCounselorRequest w rd none).1 rd' none).1.db.requests
      = w.db.requests ++ [rd] ++ [rd'] ∧
    (createCounselorRequest (createCounselorRequest w rd none).1 rd' none).2
      = okEnv [rd'] :=
  ⟨rfl, rfl, rfl, rfl⟩

/-! ## Claim C2 — state-machine validation in `updateCounselorRequestStatus` -/

/-- Claim C2 (refuted at a concrete input): on a request already in the
terminal state `approved`, `updateCounselorRequestStatus` with `declined`
does not fail with any invalid-transition error — it succeeds and overwrites
the record; and a status value outside `{approved, declined}` (`"bogus"`)
is accepted as well. -/
theorem C2_counterexample :
    (updateCounselorRequestStatus wApproved 1 "declined" none 200 none).2.error
      = none ∧
    (updateCounselorRequestStatus wApproved 1 "declined" none 200 none).1.db.requests
      ≠ wApproved.db.requests ∧
    ((updateCounselorRequestStatus wApproved 1 "declined" none 200 none).2.data.map
      (fun r => r.status)) = some "declined" ∧
    (updateCounselorRequestStatus wApproved 1 "bogus" none 210 none).2.error
      = none := by
  decide

/-- Claim C2 as amended: `updateCounselorRequestStatus` validates neither the
new status nor the current state. For every stored record (whatever its
current status, terminal or not) and every `status` string whatsoever, it
overwrites the record's status with the given string, returns success, and
no `InvalidTransition` error kind exists anywhere in the operation. -/
theorem C2_update_noValidation (w : World) (i : Nat) (st : String)
    (notes : Option String) (now : Nat) (r : CounselorRequest)
    (h : w.db.requests.filter (fun q => q.id == i) = [r]) :
    (updateCounselorRequestStatus w i st notes now none).2
      = okEnv (applyUpdateData (mkUpdateData st notes now) r) ∧
    (applyUpdateData (mkUpdateData st notes now) r).status = st ∧
    (updateCounselorRequestStatus w i st notes now none).1.db.requests
      = w.db.requests.map (fun q => if q.id == i then
          applyUpdateData (mkUpdateData st notes now) q else q) := by
  rw [update_success w i st notes now r h]
  exact ⟨rfl, rfl, rfl⟩

/-- Witness for `C2_update_noValidation`: the approved request is moved to
`declined` (an illegal transition per the spec) with a success envelope. -/
theorem C2_update_noValidation_witness :
    (updateCounselorRequestStatus wApproved 1 "declined" none 200 none).2
      = okEnv (applyUpdateData (mkUpdateData "declined" none 200) reqApproved) ∧
    (applyUpdateData (mkUpdateData "declined" none 200) reqApproved).status
      = "declined" := by
  have h := C2_update_noValidation wApproved 1 "declined" none 200 reqApproved
    (by decide)
  exact ⟨h.1, h.2.1⟩

/-! ## Claim C6 — `updated_at` / `approved_at` handling -/

/-- Claim C6 (refuted at a concrete input): `approved_at` is not written only
on the transition `requested → approved`: calling the update with `approved`
on a record that is already `approved` (with `approved_at = 150`) rewrites
`approved_at` to the new clock value 200. -/
theorem C6_counterexample :
    reqApproved.status = "approved" ∧
    reqApproved.approved_at = some 150 ∧
    ((updateCounselorRequestStatus wApproved 1 "approved" none 200 none).2.data.map
      (fun r => r.approved_at)) = some (some 200) ∧
    ((updateCounselorRequestStatus wApproved 1 "approved" none 200 none).2.data.map
      (fun r => r.approved_at)) ≠ some reqApproved.approved_at := by
  decide

/-- Claim C6 as amended: on the successful path `updated_at` is always set to
the current clock, and `approved_at` is set to the current clock exactly when
the `status` argument is the string `approved` — irrespective of the record's
previous status, so an already-approved record gets its `approved_at`
rewritten. `updated_at` is non-decreasing whenever the injected clock is. -/
theorem C6_timestamps (w : World) (i : Nat) (st : String) (notes : Option String)
    (now : Nat) (r : CounselorRequest)
    (h : w.db.requests.filter (fun q => q.id == i) = [r]) :
    (updateCounselorRequestStatus w i st notes now none).2.data
      = some (applyUpdateData (mkUpdateData st notes now) r) ∧
    (applyUpdateData (mkUpdateData st notes now) r).updated_at = now ∧
    (applyUpdateData (mkUpdateData st notes now) r).approved_at
      = (if st == "approved" then some now else r.approved_at) ∧
    (r.updated_at ≤ now →
      r.updated_at ≤ (applyUpdateData (mkUpdateData st notes now) r).updated_at) := by
  rw [update_success w i st notes now r h]
  refine ⟨rfl, rfl, ?_, fun hle => hle⟩
  by_cases hst : (st == "approved") = true
  · simp [applyUpdateData, mkUpdateData, hst]
  · simp [applyUpdateData, mkUpdateData, hst]

/-- Witness for `C6_timestamps` at the already-approved record: re-approval
rewrites `approved_at` to the new clock 200 and sets `updated_at` to 200. -/
theorem C6_timestamps_witness :
    (updateCounselorRequestStatus wApproved 1 "approved" none 200 none).2.data
      = some (applyUpdateData (mkUpdateData "approved" none 200) reqApproved) ∧
    (applyUpdateData (mkUpdateData "approved" none 200) reqApproved).updated_at
      = 200 ∧
    reqApproved.updated_at
      ≤ (applyUpdateData (mkUpdateData "approved" none 200) reqApproved).updated_at := by
  have h := C6_timestamps wApproved 1 "approved" none 200 reqApproved (by decide)
  exact ⟨h.1, h.2.1, h.2.2.2 (by decide)⟩

/-! ## Claim C10 — frame conditions of the status update -/

/-- Claim C10 (confirmed): when `adminNotes` is omitted/`null`/empty (falsy),
the stored `admin_notes` is left unchanged; when it is a non-empty string it
is written; `approved_at` is written only when the new status is `approved`;
and the update writes nothing else — `id`, `student_id`,
`requested_counselor_id`, `counselor_id`, `requested_at` and `created_at`
are all preserved, and only rows whose `id` matches are touched at all. -/
theorem C10_update_frame (w : World) (i : Nat) (st : String)
    (notes : Option String) (now : Nat) (r : CounselorRequest)
    (h : w.db.requests.filter (fun q => q.id == i) = [r]) :
    (updateCounselorRequestStatus w i st notes now none).2.data
      = some (applyUpdateData (mkUpdateData st notes now) r) ∧
    (updateCounselorRequestStatus w i st notes now none).1.db.requests
      = w.db.requests.map (fun q => if q.id == i then
          applyUpdateData (mkUpdateData st notes now) q else q) ∧
    (jsTruthyStr notes = false →
      (applyUpdateData (mkUpdateData st notes now) r).admin_notes = r.admin_notes) ∧
    (jsTruthyStr notes = true →
      (applyUpdateData (mkUpdateData st notes now) r).admin_notes = notes) ∧
    (st ≠ "approved" →
      (applyUpdateData (mkUpdateData st notes now) r).approved_at = r.approved_at) ∧
    (applyUpdateData (mkUpdateData st notes now) r).id = r.id ∧
    (applyUpdateData (mkUpdateData st notes now) r).student_id = r.student_id ∧
    (applyUpdateData (mkUpdateData st notes now) r).requested_counselor_id
      = r.requested_counselor_id ∧
    (applyUpdateData (mkUpdateData st notes now) r).counselor_id = r.counselor_id ∧
    (applyUpdateData (mkUpdateData st notes now) r).requested_at = r.requested_at ∧
    (applyUpdateData (mkUpdateData st notes now) r).created_at = r.created_at := by
  rw [update_success w i st notes now r h]
  refine ⟨rfl, rfl, ?_, ?_, ?_, rfl, rfl, rfl, rfl, rfl, rfl⟩
  · intro hn
    simp [applyUpdateData, mkUpdateData, hn]
  · intro hn
    cases notes with
    | none => simp [jsTruthyStr] at hn
    | some s => simp [applyUpdateData, mkUpdateData, hn]
  · intro hst
    have hb : (st == "approved") = false := by
      simp [hst]
    simp [applyUpdateData, mkUpdateData, hb]

/-- Witness for `C10_update_frame`: declining the stored request with
`adminNotes` omitted leaves `admin_notes`, `approved_at` and all identity
fields unchanged. -/
theorem C10_update_frame_witness :
    (updateCounselorRequestStatus wApproved 1 "declined" none 200 none).2.data
      = some (applyUpdateData (mkUpdateData "declined" none 200) reqApproved) ∧
    (applyUpdateData (mkUpdateData "declined" none 200) reqApproved).admin_notes
      = reqApproved.admin_notes ∧
    (applyUpdateData (mkUpdateData "declined" none 200) reqApproved).approved_at
      = reqApproved.approved_at ∧
    (applyUpdateData (mkUpdateData "declined" none 200) reqApproved).student_id
      = reqApproved.student_id := by
  have h := C10_update_frame wApproved 1 "declined" none 200 reqApproved (by decide)
  exact ⟨h.1, h.2.2.1 rfl, h.2.2.2.2.1 (by decide), h.2.2.2.2.2.2.1⟩

/-! ## Preservation lemmas for the remote-call plumbing -/

theorem remoteCall_db (w : World) (fail : Option String)
    (compute : DB → Except String α) : (remoteCall w fail compute).1.db = w.db := by
  cases fail with
  | some e => rfl
  | none =>
    cases hc : compute w.db with
    | ok a => simp [remoteCall, hc]
    | error e => simp [remoteCall, hc]

theorem remoteCall_cache (w : World) (fail : Option String)
    (compute : DB → Except String α) :
    (remoteCall w fail compute).1.cache = w.cache := by
  cases fail with
  | some e => rfl
  | none =>
    cases hc : compute w.db with
    | ok a => simp [remoteCall, hc]
    | error e => simp [remoteCall, hc]

theorem getAllCountries_db (w : World) (fail : Option String) :
    (getAllCountries w fail).1.db = w.db := by
  unfold getAllCountries
  cases hcc : w.cache.countries with
  | some rows => rfl
  | none =>
    cases fail with
    | some e => rfl
    | none => rfl

theorem getAllPathways_db (w : World) (fail : Option String) :
    (getAllPathways w fail).1.db = w.db := by
  unfold getAllPathways
  cases hcp : w.cache.pathways with
  | some rows => rfl
  | none =>
    cases fail with
    | some e => rfl
    | none => rfl

/-- Success path of an uncached `getAllCountries`: the sorted rows are
fetched, cached and returned. -/
theorem gac_success (w : World) (hc : w.cache.countries = none) :
    getAllCountries w none =
      ({ w with
          fetchCount := w.fetchCount + 1
          cache := { w.cache with countries := (some
            (sortBy (fun a b => strLe a.country_name b.country_name)
              w.db.countries)) } },
        okEnv (sortBy (fun a b => strLe a.country_name b.country_name)
          w.db.countries)) := by
  unfold getAllCountries
  rw [hc]

/-- Success path of an uncached `getAllPathways`. -/
theorem gap_success (w : World) (hp : w.cache.pathways = none) :
    getAllPathways w none =
      ({ w with
          fetchCount := w.fetchCount + 1
          cache := { w.cache with pathways := (some
            (sortBy (fun a b => strLe a.name b.name) w.db.pathways)) } },
        okEnv (sortBy (fun a b => strLe a.name b.name) w.db.pathways)) := by
  unfold getAllPathways
  rw [hp]

/-! ## Catalog fixtures -/

def cAus : Country := { country_id := 1, country_name := "Australia", country_code := "AU" }

def cCan : Country := { country_id := 2, country_name := "Canada", country_code := "CA" }

def uniAlpha : University :=
  { id := 1, university_name := "Alpha University", city := "Sydney",
    state_province := "NSW", country_id := 1, university_type := "Public" }

def crsCS : Course :=
  { id := 1, program_name := "Computer Science", degree_level := "Bachelor",
    university_id := 1 }

def pwEng : Pathway := { id := 1, name := "Engineering" }

/-- Fresh service over a small catalog store. -/
def wCatalog : World :=
  { db := { countries := [cAus, cCan], universities := [uniAlpha],
            courses := [crsCS], pathways := [pwEng], counselors := [],
            requests := [] },
    cache := Cache.init, fetchCount := 0 }

/-! ## Claim C5 — partial-failure tolerance of `getStatistics` -/

/-- Claim C5 (confirmed): each count of `getStatistics` equals the row count
of the corresponding list call's `data` when that call succeeds and `0` when
that call fails (`data?.length || 0`); the aggregate itself always returns a
counts record — an injected failure of the courses query forces
`courses = 0` while the universities count (for example) is still the true
row count of the store. -/
theorem C5_statistics (w : World) (f1 f2 f3 f4 : Option String) :
    ((getStatistics w f1 f2 f3 f4).2.countries
      = optLen (getAllCountries w f1).2.data) ∧
    ((getStatistics w f1 f2 f3 f4).2.universities
      = optLen (getAllUniversities (getAllCountries w f1).1 f2).2.data) ∧
    ((getStatistics w f1 f2 f3 f4).2.courses
      = optLen (getAllCourses
          (getAllUniversities (getAllCountries w f1).1 f2).1 f3).2.data) ∧
    ((getStatistics w f1 f2 f3 f4).2.pathways
      = optLen (getAllPathways (getAllCourses
          (getAllUniversities (getAllCountries w f1).1 f2).1 f3).1 f4).2.data) ∧
    (∀ rows, (getAllCourses
          (getAllUniversities (getAllCountries w f1).1 f2).1 f3).2.data = some rows →
      (getStatistics w f1 f2 f3 f4).2.courses = rows.length) ∧
    ((getAllCourses
          (getAllUniversities (getAllCountries w f1).1 f2).1 f3).2.data = none →
      (getStatistics w f1 f2 f3 f4).2.courses = 0) ∧
    (∀ e, f3 = some e →
      (getAllCourses
          (getAllUniversities (getAllCountries w f1).1 f2).1 f3).2 = errEnv e) ∧
    (f2 = none →
      (getStatistics w f1 f2 f3 f4).2.universities
        = (sortBy (fun a b => strLe a.university_name b.university_name)
            w.db.universities).length) := by
  refine ⟨rfl, rfl, rfl, rfl, ?_, ?_, ?_, ?_⟩
  · intro rows hr
    show optLen (getAllCourses
      (getAllUniversities (getAllCountries w f1).1 f2).1 f3).2.data = rows.length
    rw [hr]
    rfl
  · intro hn
    show optLen (getAllCourses
      (getAllUniversities (getAllCountries w f1).1 f2).1 f3).2.data = 0
    rw [hn]
    rfl
  · intro e he
    subst he
    rfl
  · intro h2
    subst h2
    show optLen (getAllUniversities (getAllCountries w f1).1 none).2.data = _
    have hdb := getAllCountries_db w f1
    simp [getAllUniversities, remoteCall, hdb, optLen, okEnv]

/-- Witness for `C5_statistics`: over the concrete catalog with the courses
query failing, the statistics are `{2, 1, 0, 1}` — `courses` degrades to `0`
and the other counts are unaffected. -/
theorem C5_statistics_witness :
    (getStatistics wCatalog none none (some "boom") none).2
      = { countries := 2, universities := 1, courses := 0, pathways := 1 } ∧
    (getStatistics wCatalog none none (some "boom") none).2.courses = 0 := by
  have h := C5_statistics wCatalog none none (some "boom") none
  obtain ⟨-, -, -, -, -, hC, hD, -⟩ := h
  have hdata := hD "boom" rfl
  exact ⟨by decide, hC (by rw [hdata]; rfl)⟩

/-! ## Claim C9 — a failed load does not poison the cache -/

/-- Claim C9 (confirmed): when the countries (resp. pathways) cache is empty
and the load fails, the error envelope is returned and the cache is left
completely unchanged; the next call issues the remote read again (the fetch
counter advances) and, succeeding, returns and caches the fresh rows. -/
theorem C9_failedLoadNotCached (w : World) (e1 e2 : String)
    (hc : w.cache.countries = none) (hp : w.cache.pathways = none) :
    (getAllCountries w (some e1)).2 = errEnv e1 ∧
    (getAllCountries w (some e1)).1.cache = w.cache ∧
    (getAllCountries w (some e1)).1.fetchCount = w.fetchCount + 1 ∧
    (getAllCountries (getAllCountries w (some e1)).1 none).1.fetchCount
      = w.fetchCount + 2 ∧
    (getAllCountries (getAllCountries w (some e1)).1 none).2
      = okEnv (sortBy (fun a b => strLe a.country_name b.country_name)
          w.db.countries) ∧
    (getAllCountries (getAllCountries w (some e1)).1 none).1.cache.countries
      = some (sortBy (fun a b => strLe a.country_name b.country_name)
          w.db.countries) ∧
    (getAllPathways w (some e2)).2 = errEnv e2 ∧
    (getAllPathways w (some e2)).1.cache = w.cache ∧
    (getAllPathways (getAllPathways w (some e2)).1 none).1.fetchCount
      = w.fetchCount + 2 ∧
    (getAllPathways (getAllPathways w (some e2)).1 none).2
      = okEnv (sortBy (fun a b => strLe a.name b.name) w.db.pathways) := by
  have h1 : getAllCountries w (some e1)
      = ({ w with fetchCount := w.fetchCount + 1 }, errEnv e1) := by
    unfold getAllCountries
    rw [hc]
  have h2 : getAllPathways w (some e2)
      = ({ w with fetchCount := w.fetchCount + 1 }, errEnv e2) := by
    unfold getAllPathways
    rw [hp]
  have h3 := gac_success { w with fetchCount := w.fetchCount + 1 } hc
  have h4 := gap_success { w with fetchCount := w.fetchCount + 1 } hp
  rw [h1, h2, h3, h4]
  exact ⟨rfl, rfl, rfl, rfl, rfl, rfl, rfl, rfl, rfl, rfl⟩

/-! ## Claim C3 — no single-flight on concurrent cached loads -/

/-- Claim C3 (refuted at a concrete input): two concurrent `getAllCountries`
calls on an uncached key, interleaved so that both run their cache check
before either load resolves, issue TWO remote fetches — not exactly one —
even though both callers do receive the resolved rows. -/
theorem C3_counterexample :
    (gacTwoOverlapped { cache := none, fetchCount := 0 }
      (.ok [cAus]) (.ok [cAus])).1.fetchCount = 2 ∧
    ¬ (gacTwoOverlapped { cache := none, fetchCount := 0 }
      (.ok [cAus]) (.ok [cAus])).1.fetchCount = 1 ∧
    (gacTwoOverlapped { cache := none, fetchCount := 0 }
      (.ok [cAus]) (.ok [cAus])).2.1 = .finished (okEnv [cAus]) ∧
    (gacTwoOverlapped { cache := none, fetchCount := 0 }
      (.ok [cAus]) (.ok [cAus])).2.2 = .finished (okEnv [cAus]) := by
  decide

/-- Claim C3 as amended: the cached loads have no single-flight, for either
cached collection. A `getAllCountries` (resp. `getAllPathways`) call that
starts while another call's load is still in flight issues its own remote
fetch (so two overlapped calls on the uncached key fetch twice, each caller
receiving its own fetch's rows, the second store overwriting the first in
the cache); only a call that starts after a successful load has completed is
served from the cache without fetching. -/
theorem C3_noSingleFlight (rowsA rowsB : List Country)
    (prowsA prowsB : List Pathway) :
    (gacTwoOverlapped { cache := none, fetchCount := 0 }
      (.ok rowsA) (.ok rowsB)).1.fetchCount = 2 ∧
    (gacTwoOverlapped { cache := none, fetchCount := 0 }
      (.ok rowsA) (.ok rowsB)).2.1 = .finished (okEnv rowsA) ∧
    (gacTwoOverlapped { cache := none, fetchCount := 0 }
      (.ok rowsA) (.ok rowsB)).2.2 = .finished (okEnv rowsB) ∧
    (gacTwoOverlapped { cache := none, fetchCount := 0 }
      (.ok rowsA) (.ok rowsB)).1.cache = some rowsB ∧
    (gacTwoSequential { cache := none, fetchCount := 0 }
      (.ok rowsA) (.ok rowsB)).1.fetchCount = 1 ∧
    (gacTwoSequential { cache := none, fetchCount := 0 }
      (.ok rowsA) (.ok rowsB)).2.1 = .finished (okEnv rowsA) ∧
    (gacTwoSequential { cache := none, fetchCount := 0 }
      (.ok rowsA) (.ok rowsB)).2.2 = .finished (okEnv rowsA) ∧
    (gapTwoOverlapped { cache := none, fetchCount := 0 }
      (.ok prowsA) (.ok prowsB)).1.fetchCount = 2 ∧
    (gapTwoOverlapped { cache := none, fetchCount := 0 }
      (.ok prowsA) (.ok prowsB)).2.1 = .finished (okEnv prowsA) ∧
    (gapTwoOverlapped { cache := none, fetchCount := 0 }
      (.ok prowsA) (.ok prowsB)).2.2 = .finished (okEnv prowsB) ∧
    (gapTwoOverlapped { cache := none, fetchCount := 0 }
      (.ok prowsA) (.ok prowsB)).1.cache = some prowsB ∧
    (gapTwoSequential { cache := none, fetchCount := 0 }
      (.ok prowsA) (.ok prowsB)).1.fetchCount = 1 ∧
    (gapTwoSequential { cache := none, fetchCount := 0 }
      (.ok prowsA) (.ok prowsB)).2.1 = .finished (okEnv prowsA) ∧
    (gapTwoSequential { cache := none, fetchCount := 0 }
      (.ok prowsA) (.ok prowsB)).2.2 = .finished (okEnv prowsA) :=
  ⟨rfl, rfl, rfl, rfl, rfl, rfl, rfl, rfl, rfl, rfl, rfl, rfl, rfl, rfl⟩

/-- Bridge between the interleaving model and the service-level definition:
one task run to completion under `gacStep`, fed the rows the store would
answer, finishes with exactly the envelope and cache effect of
`getAllCountries` on the corresponding `World`. -/
theorem gacStep_agrees_getAllCountries (w : World) (hc : w.cache.countries = none) :
    (gacStep (gacStep { cache := w.cache.countries, fetchCount := w.fetchCount }
        .start (.ok (sortBy (fun a b => strLe a.country_name b.country_name)
          w.db.countries))).1
      (gacStep { cache := w.cache.countries, fetchCount := w.fetchCount }
        .start (.ok (sortBy (fun a b => strLe a.country_name b.country_name)
          w.db.countries))).2
      (.ok (sortBy (fun a b => strLe a.country_name b.country_name)
        w.db.countries))).2
      = .finished (getAllCountries w none).2 ∧
    (gacStep (gacStep { cache := w.cache.countries, fetchCount := w.fetchCount }
        .start (.ok (sortBy (fun a b => strLe a.country_name b.country_name)
          w.db.countries))).1
      (gacStep { cache := w.cache.countries, fetchCount := w.fetchCount }
        .start (.ok (sortBy (fun a b => strLe a.country_name b.country_name)
          w.db.countries))).2
      (.ok (sortBy (fun a b => strLe a.country_name b.country_name)
        w.db.countries))).1.cache
      = (getAllCountries w none).1.cache.countries := by
  rw [gac_success w hc]
  simp [gacStep, hc]

/-- Same bridge for the pathways side: one `getAllPathways` task run to
completion under `gapStep` finishes with exactly the envelope and cache
effect of `getAllPathways` on the corresponding `World`. -/
theorem gapStep_agrees_getAllPathways (w : World) (hp : w.cache.pathways = none) :
    (gapStep (gapStep { cache := w.cache.pathways, fetchCount := w.fetchCount }
        .start (.ok (sortBy (fun a b => strLe a.name b.name) w.db.pathways))).1
      (gapStep { cache := w.cache.pathways, fetchCount := w.fetchCount }
        .start (.ok (sortBy (fun a b => strLe a.name b.name) w.db.pathways))).2
      (.ok (sortBy (fun a b => strLe a.name b.name) w.db.pathways))).2
      = .finished (getAllPathways w none).2 ∧
    (gapStep (gapStep { cache := w.cache.pathways, fetchCount := w.fetchCount }
        .start (.ok (sortBy (fun a b => strLe a.name b.name) w.db.pathways))).1
      (gapStep { cache := w.cache.pathways, fetchCount := w.fetchCount }
        .start (.ok (sortBy (fun a b => strLe a.name b.name) w.db.pathways))).2
      (.ok (sortBy (fun a b => strLe a.name b.name) w.db.pathways))).1.cache
      = (getAllPathways w none).1.cache.pathways := by
  rw [gap_success w hp]
  simp [gapStep, hp]

/-! ## Cached-path and cache-preservation lemmas -/

/-- A truthy `this.cache.countries` short-circuits `getAllCountries`
completely: the cached rows are returned and nothing changes. -/
theorem gac_cached (w : World) (v : List Country)
    (hc : w.cache.countries = some v) (fail : Option String) :
    getAllCountries w fail = (w, okEnv v) := by
  unfold getAllCountries
  rw [hc]

/-- A truthy `this.cache.pathways` short-circuits `getAllPathways`. -/
theorem gap_cached (w : World) (v : List Pathway)
    (hp : w.cache.pathways = some v) (fail : Option String) :
    getAllPathways w fail = (w, okEnv v) := by
  unfold getAllPathways
  rw [hp]

theorem getAllUniversities_cache (w : World) (fail : Option String) :
    (getAllUniversities w fail).1.cache = w.cache := by
  unfold getAllUniversities
  exact remoteCall_cache w fail _

theorem getAllCourses_cache (w : World) (fail : Option String) :
    (getAllCourses w fail).1.cache = w.cache := by
  unfold getAllCourses
  exact remoteCall_cache w fail _

theorem create_cache (w : World) (rd : CounselorRequest) (fail : Option String) :
    (createCounselorRequest w rd fail).1.cache = w.cache := by
  cases fail with
  | some e => rfl
  | none => rfl

theorem update_cache (w : World) (i : Nat) (st : String) (n : Option String)
    (now : Nat) (fail : Option String) :
    (updateCounselorRequestStatus w i st n now fail).1.cache = w.cache := by
  cases fail with
  | some e => rfl
  | none =>
    unfold updateCounselorRequestStatus
    split
    · rfl
    · dsimp only
      split <;> rfl

theorem getStatistics_world (w : World) (f1 f2 f3 f4 : Option String) :
    (getStatistics w f1 f2 f3 f4).1
      = (getAllPathways (getAllCourses (getAllUniversities
          (getAllCountries w f1).1 f2).1 f3).1 f4).1 := rfl

/-- With both reference caches populated, `getStatistics` leaves the cache
exactly as it was. -/
theorem getStatistics_cache_preserved (w : World) (f1 f2 f3 f4 : Option String)
    (v : List Country) (vp : List Pathway)
    (hc : w.cache.countries = some v) (hp : w.cache.pathways = some vp) :
    (getStatistics w f1 f2 f3 f4).1.cache = w.cache := by
  rw [getStatistics_world]
  have h1 : (getAllCountries w f1).1 = w := by rw [gac_cached w v hc f1]
  rw [h1]
  have h2 := getAllUniversities_cache w f2
  have h3 := getAllCourses_cache (getAllUniversities w f2).1 f3
  have hp3 : (getAllCourses (getAllUniversities w f2).1 f3).1.cache.pathways
      = some vp := by
    rw [h3, h2]
    exact hp
  rw [gap_cached _ vp hp3 f4, h3, h2]

/-- With both reference caches populated, no public operation whatsoever
changes either cached entry. -/
theorem cachePreserved (op : Op) (w : World) (v : List Country)
    (vp : List Pathway) (hc : w.cache.countries = some v)
    (hp : w.cache.pathways = some vp) :
    (runOp op w).1.cache.countries = some v ∧
    (runOp op w).1.cache.pathways = some vp := by
  cases op with
  | opGetAllCountries f =>
    simp only [runOp, gac_cached w v hc f]
    exact ⟨hc, hp⟩
  | opGetCountryById i f =>
    simp only [runOp, getCountryById, remoteCall_cache]
    exact ⟨hc, hp⟩
  | opGetAllUniversities f =>
    simp only [runOp, getAllUniversities, remoteCall_cache]
    exact ⟨hc, hp⟩
  | opGetUniversitiesByCountry i f =>
    simp only [runOp, getUniversitiesByCountry, remoteCall_cache]
    exact ⟨hc, hp⟩
  | opGetUniversityById i f =>
    simp only [runOp, getUniversityById, remoteCall_cache]
    exact ⟨hc, hp⟩
  | opGetAllCourses f =>
    simp only [runOp, getAllCourses, remoteCall_cache]
    exact ⟨hc, hp⟩
  | opGetCoursesByUniversity i f =>
    simp only [runOp, getCoursesByUniversity, remoteCall_cache]
    exact ⟨hc, hp⟩
  | opGetCourseById i f =>
    simp only [runOp, getCourseById, remoteCall_cache]
    exact ⟨hc, hp⟩
  | opGetAllPathways f =>
    simp only [runOp, gap_cached w vp hp f]
    exact ⟨hc, hp⟩
  | opSearchUniversities t fs f =>
    simp only [runOp, searchUniversities, remoteCall_cache]
    exact ⟨hc, hp⟩
  | opSearchCourses t fs f =>
    simp only [runOp, searchCourses, remoteCall_cache]
    exact ⟨hc, hp⟩
  | opGetStatistics f1 f2 f3 f4 =>
    simp only [runOp, getStatistics_cache_preserved w f1 f2 f3 f4 v vp hc hp]
    exact ⟨hc, hp⟩
  | opGetAllCounselors f =>
    simp only [runOp, getAllCounselors, remoteCall_cache]
    exact ⟨hc, hp⟩
  | opGetCounselorById i f =>
    simp only [runOp, getCounselorById, remoteCall_cache]
    exact ⟨hc, hp⟩
  | opGetCounselorRequestByStudent i f =>
    simp only [runOp, getCounselorRequestByStudent, remoteCall_cache]
    exact ⟨hc, hp⟩
  | opGetCounselorRequestsByCounselor i f =>
    simp only [runOp, getCounselorRequestsByCounselor, remoteCall_cache]
    exact ⟨hc, hp⟩
  | opCreateCounselorRequest rd f =>
    simp only [runOp, create_cache]
    exact ⟨hc, hp⟩
  | opGetAllCounselorRequests f =>
    simp only [runOp, getAllCounselorRequests, remoteCall_cache]
    exact ⟨hc, hp⟩
  | opGetCounselorRequestsByStatus s f =>
    simp only [runOp, getCounselorRequestsByStatus, remoteCall_cache]
    exact ⟨hc, hp⟩
  | opUpdateCounselorRequestStatus i s n now f =>
    simp only [runOp, update_cache]
    exact ⟨hc, hp⟩
  | opGetCounselorStudents i f =>
    simp only [runOp, getCounselorStudents, remoteCall_cache]
    exact ⟨hc, hp⟩

/-! ## Claim C4 — no cache invalidation exists -/

/-- Service whose constructor-made cache has been populated for countries and
pathways, over the catalog store. -/
def wCached : World :=
  { db := wCatalog.db,
    cache := { countries := some [cAus], universities := none, courses := none,
               pathways := some [pwEng] },
    fetchCount := 0 }

/-- One concrete instance of every public method of the class (every `Op`
constructor occurs). -/
def allOpsSample : List Op :=
  [ .opGetAllCountries none, .opGetAllCountries (some "down"),
    .opGetCountryById 1 none, .opGetAllUniversities none,
    .opGetUniversitiesByCountry 1 none, .opGetUniversityById 1 none,
    .opGetAllCourses none, .opGetCoursesByUniversity 1 none,
    .opGetCourseById 1 none, .opGetAllPathways none,
    .opSearchUniversities "alpha" { country_id := none, university_type := none } none,
    .opSearchCourses "science" { university_id := none, degree_level := none } none,
    .opGetStatistics none none none none, .opGetAllCounselors none,
    .opGetCounselorById 1 none, .opGetCounselorRequestByStudent 1 none,
    .opGetCounselorRequestsByCounselor 5 none,
    .opCreateCounselorRequest reqActive none, .opGetAllCounselorRequests none,
    .opGetCounselorRequestsByStatus "requested" none,
    .opUpdateCounselorRequestStatus 1 "approved" none 20 none,
    .opGetCounselorStudents 5 none ]

/-- Claim C4 (refuted at a concrete input): the class exposes no
`invalidate`/`invalidateAll` — running one concrete instance of every public
method on a service with populated caches leaves both cached entries exactly
as they were, and the next `getAllCountries` is served from the cache
without issuing any fresh remote read (the fetch counter does not move). -/
theorem C4_counterexample :
    (allOpsSample.all fun op =>
      ((runOp op wCached).1.cache.countries == some [cAus]) &&
      ((runOp op wCached).1.cache.pathways == some [pwEng])) = true ∧
    (getAllCountries wCached none).2 = okEnv [cAus] ∧
    (getAllCountries wCached none).1.fetchCount = wCached.fetchCount := by
  decide

/-- Claim C4 as amended: the service exposes no invalidation operation of any
kind. Once `this.cache.countries` (resp. `this.cache.pathways`) is populated,
no public operation ever clears or changes it for the lifetime of the
instance, and every subsequent `getAllCountries` (resp. `getAllPathways`)
returns the previously cached array without issuing a remote read. -/
theorem C4_noInvalidation (op : Op) (w : World) (v : List Country)
    (vp : List Pathway) (hc : w.cache.countries = some v)
    (hp : w.cache.pathways = some vp) :
    (runOp op w).1.cache.countries = some v ∧
    (runOp op w).1.cache.pathways = some vp ∧
    (∀ fail, getAllCountries w fail = (w, okEnv v)) ∧
    (∀ fail, getAllPathways w fail = (w, okEnv vp)) :=
  ⟨(cachePreserved op w v vp hc hp).1, (cachePreserved op w v vp hc hp).2,
    fun fail => gac_cached w v hc fail, fun fail => gap_cached w vp hp fail⟩

/-- Witness for `C4_noInvalidation`: a status update (the only mutating
operation) leaves the populated caches intact and the following
`getAllCountries` is a pure cache hit. -/
theorem C4_noInvalidation_witness :
    (runOp (.opUpdateCounselorRequestStatus 1 "approved" none 20 none)
      wCached).1.cache.countries = some [cAus] ∧
    getAllCountries wCached none = (wCached, okEnv [cAus]) := by
  have h := C4_noInvalidation
    (.opUpdateCounselorRequestStatus 1 "approved" none 20 none)
    wCached [cAus] [pwEng] rfl rfl
  exact ⟨h.1, h.2.2.1 none⟩

/-! ## Claim C8 — result envelopes and the non-throwing boundary -/

/-- The well-formed envelope shapes: exactly the two constructors the source
returns — `{data, error: null}` with data present, or `{data: null, error}`
with an error present. -/
def envShapeOk (e : Envelope α) : Prop :=
  (e.data.isSome = true ∧ e.error = none) ∨ (e.data = none ∧ e.error.isSome = true)

theorem envShape_remoteCall (w : World) (fail : Option String)
    (compute : DB → Except String α) : envShapeOk (remoteCall w fail compute).2 := by
  cases fail with
  | some e => exact Or.inr ⟨rfl, rfl⟩
  | none =>
    cases hc : compute w.db with
    | ok a => simp [remoteCall, hc, okEnv, envShapeOk]
    | error e => simp [remoteCall, hc, errEnv, envShapeOk]

theorem envShape_liftEnv (f : α → Payload) (e : Envelope α) (h : envShapeOk e) :
    envShapeOk (liftEnv f e) := by
  rcases e with ⟨d, er⟩
  cases d <;> simp [liftEnv, envShapeOk] at h ⊢ <;> tauto

theorem envShape_gac (w : World) (fail : Option String) :
    envShapeOk (getAllCountries w fail).2 := by
  unfold getAllCountries
  cases hcc : w.cache.countries with
  | some rows => exact Or.inl ⟨rfl, rfl⟩
  | none =>
    cases fail with
    | some e => exact Or.inr ⟨rfl, rfl⟩
    | none => exact Or.inl ⟨rfl, rfl⟩

theorem envShape_gap (w : World) (fail : Option String) :
    envShapeOk (getAllPathways w fail).2 := by
  unfold getAllPathways
  cases hcp : w.cache.pathways with
  | some rows => exact Or.inl ⟨rfl, rfl⟩
  | none =>
    cases fail with
    | some e => exact Or.inr ⟨rfl, rfl⟩
    | none => exact Or.inl ⟨rfl, rfl⟩

theorem envShape_create (w : World) (rd : CounselorRequest) (fail : Option String) :
    envShapeOk (createCounselorRequest w rd fail).2 := by
  cases fail with
  | some e => exact Or.inr ⟨rfl, rfl⟩
  | none => exact Or.inl ⟨rfl, rfl⟩

theorem envShape_update (w : World) (i : Nat) (st : String) (n : Option String)
    (now : Nat) (fail : Option String) :
    envShapeOk (updateCounselorRequestStatus w i st n now fail).2 := by
  cases fail with
  | some e => exact Or.inr ⟨rfl, rfl⟩
  | none =>
    unfold updateCounselorRequestStatus
    dsimp only
    split
    · exact Or.inl ⟨rfl, rfl⟩
    · exact Or.inr ⟨rfl, rfl⟩

/-- Claim C8 (refuted at a concrete input): `getStatistics` is a public
operation of the service, and what it hands back is a bare counts record,
not a `{data, error}` envelope. -/
theorem C8_counterexample :
    (runOp (.opGetStatistics none none none none) wCatalog).2.isEnvelope
      = false ∧
    (runOp (.opGetStatistics none none none none) wCatalog).2
      = .statsVal { countries := 2, universities := 1, courses := 1,
                    pathways := 1 } := by
  decide

/-- Claim C8 as amended: every public operation except `getStatistics`
returns a `{data, error}` envelope with exactly one of the two sides
populated — data present and error `null` on success, data `null` and error
present on any remote failure — and no operation propagates an exception
across the public boundary (every injected failure ends up inside the
returned value); `getStatistics` also never throws, but returns a bare
counts record rather than an envelope. -/
theorem C8_envelope (op : Op) (w : World) :
    (∀ e, (runOp op w).2 = RetVal.envelope e → envShapeOk e) ∧
    ((∀ f1 f2 f3 f4, op ≠ Op.opGetStatistics f1 f2 f3 f4) →
      (runOp op w).2.isEnvelope = true) := by
  cases op with
  | opGetAllCountries f =>
    refine ⟨?_, fun _ => rfl⟩
    intro e he
    injection he with h
    rw [← h]
    exact envShape_liftEnv _ _ (envShape_gac w f)
  | opGetCountryById i f =>
    refine ⟨?_, fun _ => rfl⟩
    intro e he
    injection he with h
    rw [← h]
    exact envShape_liftEnv _ _ (envShape_remoteCall w f _)
  | opGetAllUniversities f =>
    refine ⟨?_, fun _ => rfl⟩
    intro e he
    injection he with h
    rw [← h]
    exact envShape_liftEnv _ _ (envShape_remoteCall w f _)
  | opGetUniversitiesByCountry i f =>
    refine ⟨?_, fun _ => rfl⟩
    intro e he
    injection he with h
    rw [← h]
    exact envShape_liftEnv _ _ (envShape_remoteCall w f _)
  | opGetUniversityById i f =>
    refine ⟨?_, fun _ => rfl⟩
    intro e he
    injection he with h
    rw [← h]
    exact envShape_liftEnv _ _ (envShape_remoteCall w f _)
  | opGetAllCourses f =>
    refine ⟨?_, fun _ => rfl⟩
    intro e he
    injection he with h
    rw [← h]
    exact envShape_liftEnv _ _ (envShape_remoteCall w f _)
  | opGetCoursesByUniversity i f =>
    refine ⟨?_, fun _ => rfl⟩
    intro e he
    injection he with h
    rw [← h]
    exact envShape_liftEnv _ _ (envShape_remoteCall w f _)
  | opGetCourseById i f =>
    refine ⟨?_, fun _ => rfl⟩
    intro e he
    injection he with h
    rw [← h]
    exact envShape_liftEnv _ _ (envShape_remoteCall w f _)
  | opGetAllPathways f =>
    refine ⟨?_, fun _ => rfl⟩
    intro e he
    injection he with h
    rw [← h]
    exact envShape_liftEnv _ _ (envShape_gap w f)
  | opSearchUniversities t fs f =>
    refine ⟨?_, fun _ => rfl⟩
    intro e he
    injection he with h
    rw [← h]
    exact envShape_liftEnv _ _ (envShape_remoteCall w f _)
  | opSearchCourses t fs f =>
    refine ⟨?_, fun _ => rfl⟩
    intro e he
    injection he with h
    rw [← h]
    exact envShape_liftEnv _ _ (envShape_remoteCall w f _)
  | opGetStatistics f1 f2 f3 f4 =>
    constructor
    · intro e he
      simp only [runOp] at he
      exact absurd he (by simp)
    · intro hne
      exact absurd rfl (hne f1 f2 f3 f4)
  | opGetAllCounselors f =>
    refine ⟨?_, fun _ => rfl⟩
    intro e he
    injection he with h
    rw [← h]
    exact envShape_liftEnv _ _ (envShape_remoteCall w f _)
  | opGetCounselorById i f =>
    refine ⟨?_, fun _ => rfl⟩
    intro e he
    injection he with h
    rw [← h]
    exact envShape_liftEnv _ _ (envShape_remoteCall w f _)
  | opGetCounselorRequestByStudent i f =>
    refine ⟨?_, fun _ => rfl⟩
    intro e he
    injection he with h
    rw [← h]
    exact envShape_liftEnv _ _ (envShape_remoteCall w f _)
  | opGetCounselorRequestsByCounselor i f =>
    refine ⟨?_, fun _ => rfl⟩
    intro e he
    injection he with h
    rw [← h]
    exact envShape_liftEnv _ _ (envShape_remoteCall w f _)
  | opCreateCounselorRequest rd f =>
    refine ⟨?_, fun _ => rfl⟩
    intro e he
    injection he with h
    rw [← h]
    exact envShape_liftEnv _ _ (envShape_create w rd f)
  | opGetAllCounselorRequests f =>
    refine ⟨?_, fun _ => rfl⟩
    intro e he
    injection he with h
    rw [← h]
    exact envShape_liftEnv _ _ (envShape_remoteCall w f _)
  | opGetCounselorRequestsByStatus s f =>
    refine ⟨?_, fun _ => rfl⟩
    intro e he
    injection he with h
    rw [← h]
    exact envShape_liftEnv _ _ (envShape_remoteCall w f _)
  | opUpdateCounselorRequestStatus i s n now f =>
    refine ⟨?_, fun _ => rfl⟩
    intro e he
    injection he with h
    rw [← h]
    exact envShape_liftEnv _ _ (envShape_update w i s n now f)
  | opGetCounselorStudents i f =>
    refine ⟨?_, fun _ => rfl⟩
    intro e he
    injection he with h
    rw [← h]
    exact envShape_liftEnv _ _ (envShape_remoteCall w f _)

/-- Witness for `C8_envelope`: a transport failure of `getAllCountries` on a
fresh service comes back as the envelope `{data: null, error: "down"}` — an
envelope, with only the error side populated. -/
theorem C8_envelope_witness :
    (runOp (.opGetAllCountries (some "down")) wCatalog).2.isEnvelope = true ∧
    (runOp (.opGetAllCountries (some "down")) wCatalog).2
      = .envelope { data := none, error := some "down" } := by
  have h := C8_envelope (.opGetAllCountries (some "down")) wCatalog
  refine ⟨h.2 (fun f1 f2 f3 f4 hx => Op.noConfusion hx), by decide⟩

/-! ## Claim C7 — filter semantics of the search methods -/

/-- A university whose `university_type` strictly extends the filter value
`"Private"`. -/
def uPriv : University :=
  { id := 2, university_name := "Beta Institute", city := "Perth",
    state_province := "WA", country_id := 2,
    university_type := "Private University" }

/-- A Master's course at university 7. -/
def crsB : Course :=
  { id := 9, program_name := "Data Science", degree_level := "Master",
    university_id := 7 }

def dbC7 : DB := { emptyDB with universities := [uPriv], courses := [crsB] }

/-- Claim C7 (refuted at a concrete input): the `university_type` filter of
`searchUniversities` is not an exact-match equality predicate — with filter
value `"Private"` the result contains a university whose type is
`"Private University"` (an `ilike '%…%'` substring match), whereas the
equality predicate would select nothing. -/
theorem C7_counterexample :
    universitySearchRows dbC7 ""
      { country_id := none, university_type := some "Private" } = [uPriv] ∧
    (uPriv.university_type == "Private") = false ∧
    dbC7.universities.filter (fun u => u.university_type == "Private") = [] := by
  decide

/-- Claim C7 as amended: `country_id`, `university_id` and `degree_level`
filters are exact-match equality predicates and multiple filters are
combined with logical AND, while `university_type` is a case-insensitive
substring (`ilike`) predicate; an absent or JS-falsy (empty string / 0)
filter value imposes no constraint — the result is identical to the same
call with the filter omitted. -/
theorem C7_filters (db : DB) (t : String) (fu : UniversityFilters)
    (fc : CourseFilters) (cid : Nat) (ty : String) (uid : Nat) (dl : String)
    (u : University) (c : Course) (v : University)
    (h1 : jsTruthyNat fu.country_id = false)
    (h2 : jsTruthyStr fu.university_type = false)
    (h3 : jsTruthyNat fc.university_id = false)
    (h4 : jsTruthyStr fc.degree_level = false)
    (h5 : cid ≠ 0) (h6 : ty ≠ "")
    (h7 : u ∈ universitySearchRows db t
      { country_id := some cid, university_type := some ty })
    (h8 : uid ≠ 0) (h9 : dl ≠ "")
    (h10 : c ∈ courseSearchRows db t
      { university_id := some uid, degree_level := some dl })
    (h11 : v ∈ db.universities) (h12 : v.country_id = cid)
    (h13 : ilike v.university_type ty = true) :
    universitySearchRows db t fu
      = universitySearchRows db t { country_id := none, university_type := none } ∧
    courseSearchRows db t fc
      = courseSearchRows db t { university_id := none, degree_level := none } ∧
    u.country_id = cid ∧ ilike u.university_type ty = true ∧
    c.university_id = uid ∧ c.degree_level = dl ∧
    v ∈ universitySearchRows db ""
      { country_id := some cid, university_type := some ty } := by
  have hty : jsTruthyStr (some ty) = true := by
    simp only [jsTruthyStr, Bool.not_eq_true', Bool.eq_false_iff, ne_eq,
      String.isEmpty_iff]
    exact h6
  have hcid : jsTruthyNat (some cid) = true := by
    simp [jsTruthyNat, h5]
  have hdl : jsTruthyStr (some dl) = true := by
    simp only [jsTruthyStr, Bool.not_eq_true', Bool.eq_false_iff, ne_eq,
      String.isEmpty_iff]
    exact h9
  have huid : jsTruthyNat (some uid) = true := by
    simp [jsTruthyNat, h8]
  refine ⟨?_, ?_, ?_, ?_, ?_, ?_, ?_⟩
  · simp only [universitySearchRows, h1, h2]
    simp [jsTruthyNat, jsTruthyStr]
  · simp only [courseSearchRows, h3, h4]
    simp [jsTruthyNat, jsTruthyStr]
  · simp only [universitySearchRows, hty, hcid, if_true, mem_sortBy,
      List.mem_filter, Option.getD] at h7
    exact beq_iff_eq.mp h7.1.2
  · simp only [universitySearchRows, hty, hcid, if_true, mem_sortBy,
      List.mem_filter, Option.getD] at h7
    exact h7.2
  · simp only [courseSearchRows, hdl, huid, if_true, mem_sortBy,
      List.mem_filter, Option.getD] at h10
    exact beq_iff_eq.mp h10.1.2
  · simp only [courseSearchRows, hdl, huid, if_true, mem_sortBy,
      List.mem_filter, Option.getD] at h10
    exact beq_iff_eq.mp h10.2
  · simp only [universitySearchRows, hty, hcid, if_true, mem_sortBy,
      List.mem_filter, Option.getD, String.isEmpty]
    exact ⟨⟨h11, beq_iff_eq.mpr h12⟩, h13⟩

/-- Witness for `C7_filters`: over the one-university/one-course store,
JS-falsy filter values (`0`, `""`) do not constrain, the equality filters
pin `university_id`/`degree_level` exactly, and the substring filter
`"private"` admits the `"Private University"` row. -/
theorem C7_filters_witness :
    universitySearchRows dbC7 ""
        { country_id := some 0, university_type := some "" }
      = universitySearchRows dbC7 ""
        { country_id := none, university_type := none } ∧
    uPriv.country_id = 2 ∧ ilike uPriv.university_type "private" = true ∧
    crsB.university_id = 7 ∧ crsB.degree_level = "Master" := by
  have h := C7_filters dbC7 ""
    { country_id := some 0, university_type := some "" }
    { university_id := none, degree_level := some "" }
    2 "private" 7 "Master" uPriv crsB uPriv
    (by decide) (by decide) (by decide) (by decide) (by decide) (by decide)
    (by decide) (by decide) (by decide) (by decide) (by decide) (by decide)
    (by decide)
  exact ⟨h.1, h.2.2.1, h.2.2.2.1, h.2.2.2.2.1, h.2.2.2.2.2.1⟩

/-- Witness for `C9_failedLoadNotCached`: on the fresh catalog service a
failing countries load returns the error envelope, leaves the cache empty,
and the retry fetches and returns the sorted rows. -/
theorem C9_failedLoadNotCached_witness :
    (getAllCountries wCatalog (some "boom")).2 = errEnv "boom" ∧
    (getAllCountries wCatalog (some "boom")).1.cache = wCatalog.cache ∧
    (getAllCountries (getAllCountries wCatalog (some "boom")).1 none).2
      = okEnv [cAus, cCan] := by
  have h := C9_failedLoadNotCached wCatalog "boom" "bam" rfl rfl
  refine ⟨h.1, h.2.1, ?_⟩
  rw [h.2.2.2.2.1]
  decide
